import Mathlib

set_option linter.unusedVariables false

/-!
Shallow embedding of the church-management backend (Express + drizzle storage
layer) and proofs about its request handlers.  Each definition is translated
from the corresponding source function; request bodies are association lists
of JSON-like values, database tables are Lean lists, and handlers are pure
functions from request data and table state to a response status plus the
new table state.
-/

/-- A JSON-like value as carried in request bodies. -/
inductive JsValue where
  | str (s : String)
  | num (q : ℚ)
  | bool (b : Bool)
  | null
  deriving DecidableEq, Repr

/-- JavaScript truthiness of a value: empty string, 0, false and null are falsy. -/
def isTruthy : JsValue → Bool
  | .str s => !s.isEmpty
  | .num q => if q = 0 then false else true
  | .bool b => b
  | .null => false

/-- A request body: an association list of field names to values (a JS object
with its own enumerable properties in insertion order). -/
abbrev Body := List (String × JsValue)

/-- Property access body[f]: the value of the first binding of f, none when the
field is absent (undefined). -/
def getField : Body → String → Option JsValue
  | [], _ => none
  | (k, v) :: rest, f => if k = f then some v else getField rest f

/-- Property assignment obj[k] = v on an object with unique keys: overwrite in
place when present, append otherwise. -/
def setField : Body → String → JsValue → Body
  | [], k, v => [(k, v)]
  | (k0, v0) :: rest, k, v =>
      if k0 = k then (k, v) :: rest else (k0, v0) :: setField rest k v

/-- A row of the users table (src/schema.ts).  createdAt is carried as epoch
milliseconds. -/
structure User where
  id : Nat
  name : String
  email : String
  password : String
  role : String
  status : String
  notificationOptIn : Bool
  profilePictureUrl : Option String
  createdAt : Int
  deriving DecidableEq, Repr

/-- storage.getUserById: first row whose id matches. -/
def getUserById (db : List User) (uid : Nat) : Option User :=
  db.find? (fun u => u.id == uid)

/-- storage.deleteUser: delete the row with the given id. -/
def deleteUser (db : List User) (uid : Nat) : List User :=
  db.filter (fun u => u.id != uid)

/-- storage.updateUser: apply a row transformation to the row with the given
id (drizzle update ... set ... where eq(id)). -/
def updateUserRow (db : List User) (uid : Nat) (f : User → User) : List User :=
  db.map (fun u => if u.id == uid then f u else u)

/-- Read a string column value out of an update-data object, keeping the
default when the field is absent or not a string. -/
def strField (d : Body) (k : String) (dflt : String) : String :=
  match getField d k with
  | some (.str s) => s
  | _ => dflt

/-- Read a nullable string column value out of an update-data object. -/
def optStrField (d : Body) (k : String) (dflt : Option String) : Option String :=
  match getField d k with
  | some (.str s) => some s
  | some .null => none
  | _ => dflt

/-- Read a boolean column value out of an update-data object. -/
def boolField (d : Body) (k : String) (dflt : Bool) : Bool :=
  match getField d k with
  | some (.bool b) => b
  | _ => dflt

/-- drizzle .set(data) on the users table: every provided column overwrites
the corresponding row field, all other fields keep their value; keys that are
not columns of the table are ignored. -/
def applyUserUpdate (d : Body) (u : User) : User :=
  { u with
    name := strField d "name" u.name
    email := strField d "email" u.email
    password := strField d "password" u.password
    role := strField d "role" u.role
    status := strField d "status" u.status
    notificationOptIn := boolField d "notificationOptIn" u.notificationOptIn
    profilePictureUrl := optStrField d "profilePictureUrl" u.profilePictureUrl }

/-- Value-level bcrypt hashing of a provided password value (the hash function
itself is an external primitive, abstracted as a parameter). -/
def hashValue (hash : String → String) : JsValue → JsValue
  | .str s => .str (hash s)
  | v => v

/-- The update data built by the admin PATCH /users/:id handler
(src/user.controller.ts, lines 124-129): the raw request body is spread into
updatedData, and only a truthy password field is replaced by its hash. -/
def adminUserUpdateData (hash : String → String) (body : Body) : Body :=
  match getField body "password" with
  | some v => if isTruthy v then setField body "password" (hashValue hash v) else body
  | none => body

/-- The hard-coded protected owner email (src/user.controller.ts). -/
def OWNER_EMAIL : String := "shahidsingh1432@gmail.com"

/-- Outcome of a user-mutating route: the HTTP status sent and the users table
after the request. -/
structure UserHandlerResult where
  status : Nat
  db : List User
  deriving DecidableEq, Repr

/-- Admin PATCH /users/:id (src/user.controller.ts lines 105-148).  idParam is
the parsed :id (none when parseInt gave NaN). -/
def adminUpdateUserHandler (db : List User) (idParam : Option Nat) (body : Body)
    (hash : String → String) : UserHandlerResult :=
  match idParam with
  | none => ⟨400, db⟩
  | some uid =>
    match getUserById db uid with
    | none => ⟨404, db⟩
    | some user =>
      if user.email = OWNER_EMAIL ∧ getField body "role" = some (JsValue.str "user") then
        ⟨403, db⟩
      else
        ⟨200, updateUserRow db uid (applyUserUpdate (adminUserUpdateData hash body))⟩

/-- Admin DELETE /users/:id (src/user.controller.ts lines 151-184). -/
def adminDeleteUserHandler (db : List User) (idParam : Option Nat) : UserHandlerResult :=
  match idParam with
  | none => ⟨400, db⟩
  | some uid =>
    match getUserById db uid with
    | none => ⟨404, db⟩
    | some user =>
      if user.email = OWNER_EMAIL then ⟨403, db⟩
      else ⟨200, deleteUser db uid⟩

/-- The authenticated identity attached to a request by the middleware
(req.user): the user row without its password, createdAt serialized. -/
structure ReqUser where
  id : Nat
  name : String
  email : String
  role : String
  notificationOptIn : Bool
  profilePictureUrl : Option String
  createdAt : Int
  deriving DecidableEq, Repr

/-- DELETE /users/profile (src/user.controller.ts lines 225-254): self-service
account deletion. -/
def deleteProfileHandler (db : List User) (reqUser : Option ReqUser) : UserHandlerResult :=
  match reqUser with
  | none => ⟨401, db⟩
  | some u =>
    if u.email = OWNER_EMAIL then ⟨403, db⟩
    else ⟨200, deleteUser db u.id⟩

/-- C1: every mutating request that targets the designated owner account
(admin user delete, admin user update whose body sets role to "user", or
self-service account delete) returns 403 and leaves the users table unchanged,
so the owner row is neither deleted nor downgraded. -/
theorem owner_account_protected :
    (∀ (db : List User) (uid : Nat) (user : User),
      getUserById db uid = some user → user.email = OWNER_EMAIL →
      adminDeleteUserHandler db (some uid) = ⟨403, db⟩) ∧
    (∀ (db : List User) (uid : Nat) (user : User) (body : Body) (hash : String → String),
      getUserById db uid = some user → user.email = OWNER_EMAIL →
      getField body "role" = some (JsValue.str "user") →
      adminUpdateUserHandler db (some uid) body hash = ⟨403, db⟩) ∧
    (∀ (db : List User) (u : ReqUser),
      u.email = OWNER_EMAIL →
      deleteProfileHandler db (some u) = ⟨403, db⟩) := by
  refine ⟨?_, ?_, ?_⟩
  · intro db uid user hfind hmail
    simp [adminDeleteUserHandler, hfind, hmail]
  · intro db uid user body hash hfind hmail hrole
    simp [adminUpdateUserHandler, hfind, hmail, hrole]
  · intro db u hmail
    simp [deleteProfileHandler, hmail]

/-- A concrete owner row used to witness the protection theorem. -/
def ownerUser : User :=
  ⟨1, "Admin User", OWNER_EMAIL, "hashedpw", "owner", "active", true, none, 0⟩

/-- Witness for C1 at a one-row table holding the owner account. -/
theorem owner_account_protected_witness :
    adminDeleteUserHandler [ownerUser] (some 1) = ⟨403, [ownerUser]⟩ ∧
    adminUpdateUserHandler [ownerUser] (some 1) [("role", JsValue.str "user")] id
      = ⟨403, [ownerUser]⟩ ∧
    deleteProfileHandler [ownerUser]
      (some ⟨1, "Admin User", OWNER_EMAIL, "owner", true, none, 0⟩)
      = ⟨403, [ownerUser]⟩ :=
  ⟨owner_account_protected.1 [ownerUser] 1 ownerUser rfl rfl,
   owner_account_protected.2.1 [ownerUser] 1 ownerUser
     [("role", JsValue.str "user")] id rfl rfl rfl,
   owner_account_protected.2.2 [ownerUser]
     ⟨1, "Admin User", OWNER_EMAIL, "owner", true, none, 0⟩ rfl⟩

/-- Math.round on a rational: round half toward positive infinity. -/
def jsRound (q : ℚ) : ℤ := ⌊q + 1/2⌋

/-- storage.getDonationGrowthPercentage (src/cloudinary.ts lines 549-589),
expressed over the two period sums it compares: current-calendar-month
completed total and previous-calendar-month completed total. -/
def getDonationGrowthPercentage (currentAmount previousAmount : ℚ) : ℤ :=
  if previousAmount = 0 then (if 0 < currentAmount then 100 else 0)
  else jsRound ((currentAmount - previousAmount) / previousAmount * 100)

/-- storage.getUserGrowthPercentage (src/cloudinary.ts lines 247-283),
expressed over the two 30-day window counts it compares. -/
def getUserGrowthPercentage (currentCount previousCount : ℕ) : ℤ :=
  if previousCount = 0 then (if 0 < currentCount then 100 else 0)
  else jsRound (((currentCount : ℚ) - previousCount) / previousCount * 100)

/-- Math.round lands within one half of its argument. -/
theorem jsRound_near (q : ℚ) : |(jsRound q : ℚ) - q| ≤ 1/2 := by
  have h1 : ((⌊q + 1/2⌋ : ℤ) : ℚ) ≤ q + 1/2 := Int.floor_le _
  have h2 : q + 1/2 < ((⌊q + 1/2⌋ : ℤ) : ℚ) + 1 := Int.lt_floor_add_one _
  rw [jsRound, abs_le]
  constructor <;> linarith

/-- C3: both growth percentages (donation month-over-month, user 30-day)
return 0 when both period totals are zero, 100 when the previous total is
zero and the current is positive, and otherwise an integer within one half of
the exact percentage change (the rounded percentage change). -/
theorem growth_percentage_zero_rule :
    (∀ c p : ℚ,
      (p = 0 → c = 0 → getDonationGrowthPercentage c p = 0) ∧
      (p = 0 → 0 < c → getDonationGrowthPercentage c p = 100) ∧
      (p ≠ 0 →
        |((getDonationGrowthPercentage c p : ℤ) : ℚ) - (c - p) / p * 100| ≤ 1/2)) ∧
    (∀ c p : ℕ,
      (p = 0 → c = 0 → getUserGrowthPercentage c p = 0) ∧
      (p = 0 → 0 < c → getUserGrowthPercentage c p = 100) ∧
      (p ≠ 0 →
        |((getUserGrowthPercentage c p : ℤ) : ℚ) - ((c : ℚ) - p) / p * 100| ≤ 1/2)) := by
  constructor
  · intro c p
    refine ⟨?_, ?_, ?_⟩
    · intro hp hc
      simp [getDonationGrowthPercentage, hp, hc]
    · intro hp hc
      simp [getDonationGrowthPercentage, hp, hc]
    · intro hp
      simp only [getDonationGrowthPercentage, hp, if_false, if_neg hp]
      exact jsRound_near _
  · intro c p
    refine ⟨?_, ?_, ?_⟩
    · intro hp hc
      simp [getUserGrowthPercentage, hp, hc]
    · intro hp hc
      simp [getUserGrowthPercentage, hp, hc]
    · intro hp
      simp only [getUserGrowthPercentage, if_neg hp]
      exact jsRound_near _

/-- Witness for C3 at concrete period totals. -/
theorem growth_percentage_zero_rule_witness :
    getDonationGrowthPercentage 0 0 = 0 ∧
    getDonationGrowthPercentage 50 0 = 100 ∧
    |((getDonationGrowthPercentage 150 100 : ℤ) : ℚ) - (150 - 100) / 100 * 100| ≤ 1/2 ∧
    getUserGrowthPercentage 0 0 = 0 ∧
    getUserGrowthPercentage 7 0 = 100 ∧
    |((getUserGrowthPercentage 3 2 : ℤ) : ℚ) - ((3 : ℚ) - 2) / 2 * 100| ≤ 1/2 :=
  ⟨(growth_percentage_zero_rule.1 0 0).1 rfl rfl,
   (growth_percentage_zero_rule.1 50 0).2.1 rfl (by norm_num),
   (growth_percentage_zero_rule.1 150 100).2.2 (by norm_num),
   (growth_percentage_zero_rule.2 0 0).1 rfl rfl,
   (growth_percentage_zero_rule.2 7 0).2.1 rfl (by norm_num),
   (growth_percentage_zero_rule.2 3 2).2.2 (by norm_num)⟩

/-- A JavaScript Date in server-local time, split into civil fields: year,
zero-based month (0 = January), one-based day of month, and milliseconds of
the day.  Ordering of instants is lexicographic on these fields. -/
structure JsDate where
  year : Int
  month : Int
  day : Int
  ms : Int
  deriving DecidableEq, Repr

instance : Inhabited JsDate := ⟨⟨1970, 0, 1, 0⟩⟩

/-- Gregorian leap-year test. -/
def isLeapYear (y : Int) : Bool :=
  Int.emod y 4 == 0 && (Int.emod y 100 != 0 || Int.emod y 400 == 0)

/-- Days in a zero-based month of a year. -/
def daysInMonth (y m : Int) : Int :=
  if m = 1 then (if isLeapYear y then 29 else 28)
  else if m = 3 ∨ m = 5 ∨ m = 8 ∨ m = 10 then 30 else 31

/-- Date.prototype.setMonth(m): the month is renormalized into 0..11 carrying
into the year, and a day-of-month that exceeds the new month length rolls into
the following month (this is how, for example, March 31 setMonth(1) lands on
March 3).  A single carry step suffices because the stored day is at most 31
and the excess over any month length is below the next month length. -/
def JsDate.setMonth (d : JsDate) (m : Int) : JsDate :=
  let y := d.year + Int.ediv m 12
  let mo := Int.emod m 12
  let dim := daysInMonth y mo
  if d.day > dim then
    if mo = 11 then ⟨y + 1, 0, d.day - dim, d.ms⟩
    else ⟨y, mo + 1, d.day - dim, d.ms⟩
  else ⟨y, mo, d.day, d.ms⟩

/-- Date.prototype.setDate(n) for in-range n (the source only calls it with 1). -/
def JsDate.setDate (d : JsDate) (n : Int) : JsDate :=
  ⟨d.year, d.month, n, d.ms⟩

/-- Date.prototype.setHours(0,0,0,0). -/
def JsDate.setHours0 (d : JsDate) : JsDate :=
  ⟨d.year, d.month, d.day, 0⟩

/-- new Date(year, month, day) at midnight, with the month renormalized
(callers only pass an in-range day). -/
def mkJsDate (y m day : Int) : JsDate :=
  ⟨y + Int.ediv m 12, Int.emod m 12, day, 0⟩

/-- Strict instant order (lexicographic on the civil fields). -/
def JsDate.ltB (a b : JsDate) : Bool :=
  a.year < b.year ||
    (a.year == b.year && (a.month < b.month ||
      (a.month == b.month && (a.day < b.day ||
        (a.day == b.day && a.ms < b.ms)))))

/-- Non-strict instant order (lexicographic on the civil fields). -/
def JsDate.leB (a b : JsDate) : Bool :=
  a.year < b.year ||
    (a.year == b.year && (a.month < b.month ||
      (a.month == b.month && (a.day < b.day ||
        (a.day == b.day && a.ms ≤ b.ms)))))

/-- A row of the donations table (src/schema.ts). -/
structure Donation where
  id : Nat
  userId : Nat
  amount : ℚ
  paymentMethod : String
  transactionId : Option String
  qrImageUrl : Option String
  esewaReference : Option String
  status : String
  createdAt : JsDate
  deriving DecidableEq, Repr

/-- SQL sum of amounts over a set of rows (an empty sum reads back as 0
through parseFloat(total or "0")). -/
def donationSum (l : List Donation) : ℚ :=
  (l.map (fun d => d.amount)).sum

/-- The short month names produced by toLocaleString for the trend labels. -/
def monthShortName (m : Int) : String :=
  ["Jan", "Feb", "Mar", "Apr", "May", "Jun",
   "Jul", "Aug", "Sep", "Oct", "Nov", "Dec"].getD (Int.toNat (Int.emod m 12)) "Jan"

/-- The label of a trend bucket: short month name plus year. -/
def monthLabel (d : JsDate) : String :=
  monthShortName d.month ++ " " ++ toString d.year

/-- The months array of storage.getDonationSummary (src/cloudinary.ts lines
669-676): for i = 0..5 take today, setMonth(month - i), setDate(1),
setHours(0,0,0,0), and unshift onto the front of the list. -/
def donationSummaryMonths (today : JsDate) : List JsDate :=
  (List.range 6).foldl
    (fun acc i =>
      (((today.setMonth (today.month - (i : Int))).setDate 1).setHours0) :: acc)
    []

/-- The half-open scan ranges of the six trend buckets (src/cloudinary.ts
lines 678-700): bucket i spans from months[i] to months[i+1], except the last
bucket, whose upper bound is today itself. -/
def monthlyTrendRanges (today : JsDate) : List (JsDate × JsDate) :=
  let months := donationSummaryMonths today
  (List.range months.length).map (fun i =>
    (months.getD i default,
     if i = months.length - 1 then today else months.getD (i + 1) default))

/-- The monthlyTrend list of storage.getDonationSummary: for each bucket, the
label of its start month and the sum of completed donations created within
the bucket range. -/
def monthlyTrend (db : List Donation) (today : JsDate) : List (String × ℚ) :=
  (monthlyTrendRanges today).map (fun r =>
    (monthLabel r.1,
     donationSum (db.filter (fun d =>
       d.status == "completed" && JsDate.leB r.1 d.createdAt
         && JsDate.ltB d.createdAt r.2))))

/-- A completed donation created on November 15, 2025. -/
def novemberDonation : Donation :=
  ⟨1, 1, 50, "credit_card", none, none, none, "completed", ⟨2025, 10, 15, 0⟩⟩

/-- C4 (failing input): on March 31, 2026 the month starts are computed by
setMonth before setDate(1), so the day 31 overflows shorter months: the list
of bucket starts contains December 1 twice and March 1 twice and skips
November and February entirely, and the completed donation of November 15,
2025 is counted in the bucket labeled "Oct 2025".  The buckets therefore do
not each cover one calendar month, contradicting the comment above the loop
(first day of each of the last six months). -/
theorem monthly_trend_march31_bug :
    donationSummaryMonths ⟨2026, 2, 31, 0⟩ =
      [⟨2025, 9, 1, 0⟩, ⟨2025, 11, 1, 0⟩, ⟨2025, 11, 1, 0⟩,
       ⟨2026, 0, 1, 0⟩, ⟨2026, 2, 1, 0⟩, ⟨2026, 2, 1, 0⟩] ∧
    monthlyTrend [novemberDonation] ⟨2026, 2, 31, 0⟩ =
      [("Oct 2025", 50), ("Dec 2025", 0), ("Dec 2025", 0),
       ("Jan 2026", 0), ("Mar 2026", 0), ("Mar 2026", 0)] := by
  constructor
  · rfl
  · norm_num [monthlyTrend, monthlyTrendRanges, donationSummaryMonths, donationSum,
      novemberDonation, monthLabel, monthShortName, JsDate.setMonth, JsDate.setDate,
      JsDate.setHours0, JsDate.leB, JsDate.ltB, daysInMonth, isLeapYear, List.range_succ]
    decide

/-- storage.getMonthlyDonationAmount (src/cloudinary.ts lines 532-547): sum of
completed donations created since the first day of the current month. -/
def getMonthlyDonationAmount (db : List Donation) (today : JsDate) : ℚ :=
  donationSum (db.filter (fun d =>
    d.status == "completed" && JsDate.leB (mkJsDate today.year today.month 1) d.createdAt))

/-- storage.getDonationGrowthPercentage applied to a table state: the two
period sums it queries, fed into the arithmetic tail embedded above as
getDonationGrowthPercentage. -/
def getDonationGrowthPercentageOn (db : List Donation) (today : JsDate) : ℤ :=
  let firstDayOfMonth := mkJsDate today.year today.month 1
  let firstDayOfLastMonth := mkJsDate today.year (today.month - 1) 1
  let currentAmount := donationSum (db.filter (fun d =>
    d.status == "completed" && JsDate.leB firstDayOfMonth d.createdAt))
  let previousAmount := donationSum (db.filter (fun d =>
    d.status == "completed" && JsDate.leB firstDayOfLastMonth d.createdAt
      && JsDate.ltB d.createdAt firstDayOfMonth))
  getDonationGrowthPercentage currentAmount previousAmount

/-- SQL avg over a row set; an empty average reads back as 0 through
parseFloat(avg or "0"). -/
def donationAvg (l : List Donation) : ℚ :=
  if l.isEmpty then 0 else donationSum l / l.length

/-- SQL group-by count: one entry per distinct key with its multiplicity. -/
def groupCount (keys : List String) : List (String × Nat) :=
  keys.dedup.map (fun k => (k, keys.count k))

/-- The aggregate object getDonationSummary would return. -/
structure DonationSummary where
  totalDonations : ℚ
  monthlyTotal : ℚ
  averageDonation : ℚ
  donationGrowth : ℤ
  totalDonors : Nat
  statusBreakdown : List (String × Nat)
  monthlyTrend : List (String × ℚ)
  paymentMethodBreakdown : List (String × Nat)
  deriving DecidableEq, Repr

/-- A runtime exception. -/
inductive JsError where
  | typeError (msg : String)
  deriving DecidableEq, Repr

/-- The method names available on the lexical this of the storage object
literal (src/cloudinary.ts line 62): the storage helpers are arrow functions,
so this inside them is the module-scope this, which carries none of the
storage methods (it is undefined under ES modules and a bare exports object
under CommonJS). -/
def moduleThisMethods : List String := []

/-- Evaluation of this.name(...) inside a storage arrow function: the lookup
on the lexical this misses, so the call throws a TypeError instead of running
the intended helper. -/
def callThisMethod (name : String) (run : Unit → α) : Except JsError α :=
  if moduleThisMethods.contains name then .ok (run ())
  else .error (.typeError ("this." ++ name ++ " is not a function"))

/-- storage.getDonationSummary (src/cloudinary.ts lines 591-738).  The period
filter, total, average, donor count, breakdowns and trend are embedded from
the source queries; the two helper invocations written as this-method calls
go through callThisMethod, reproducing the receiver the arrow function
actually sees. -/
def getDonationSummary (db : List Donation) (today : JsDate) (period : String) :
    Except JsError DonationSummary :=
  let startDate : Option JsDate :=
    match period with
    | "this_month" => some (mkJsDate today.year today.month 1)
    | "last_month" => some (mkJsDate today.year (today.month - 1) 1)
    | "this_year" => some ⟨today.year, 0, 1, 0⟩
    | _ => none
  let whereP : Donation → Bool := fun d =>
    d.status == "completed" &&
      (match startDate with
       | some s => JsDate.leB s d.createdAt
       | none => true)
  let totalDonations := donationSum (db.filter whereP)
  do
    let monthlyTotal ← callThisMethod "getMonthlyDonationAmount"
      (fun _ => getMonthlyDonationAmount db today)
    let averageDonation := donationAvg (db.filter whereP)
    let donationGrowth ← callThisMethod "getDonationGrowthPercentage"
      (fun _ => getDonationGrowthPercentageOn db today)
    let totalDonors := ((db.filter whereP).map (fun d => d.userId)).dedup.length
    let statusBreakdown := groupCount (db.map (fun d => d.status))
    let trend := monthlyTrend db today
    let paymentMethodBreakdown :=
      (groupCount ((db.filter whereP).map (fun d => d.paymentMethod))).map
        (fun e => (e.1.replace "_" " ", e.2))
    .ok ⟨totalDonations, monthlyTotal, averageDonation, donationGrowth,
         totalDonors, statusBreakdown, trend, paymentMethodBreakdown⟩

/-- Response of GET /admin/donations/summary. -/
structure SummaryRouteResult where
  status : Nat
  summary : Option DonationSummary
  message : Option String
  deriving DecidableEq, Repr

/-- GET /admin/donations/summary (donation controller, lines 38-49): default
the period query parameter to all_time, call storage.getDonationSummary, 200
with the summary on success and 500 with a generic message on a thrown
error. -/
def getSummaryRoute (db : List Donation) (today : JsDate)
    (queryPeriod : Option String) : SummaryRouteResult :=
  match getDonationSummary db today (queryPeriod.getD "all_time") with
  | .ok s => ⟨200, some s, none⟩
  | .error _ =>
      ⟨500, none, some "An error occurred while fetching donation summary"⟩

/-- C2: for every table state, date and period argument, getDonationSummary
throws the TypeError produced by looking up getMonthlyDonationAmount on the
arrow-function lexical this, and therefore every GET /admin/donations/summary
request takes the error branch: 500 with the generic message and no summary
object. -/
theorem donation_summary_always_throws :
    ∀ (db : List Donation) (today : JsDate) (queryPeriod : Option String),
      getDonationSummary db today (queryPeriod.getD "all_time")
        = .error (.typeError "this.getMonthlyDonationAmount is not a function") ∧
      getSummaryRoute db today queryPeriod
        = ⟨500, none, some "An error occurred while fetching donation summary"⟩ := by
  intro db today queryPeriod
  exact ⟨rfl, rfl⟩

/-- Truthiness of an optional string request field (absent or empty is falsy). -/
def isTruthyOptStr : Option String → Bool
  | some s => !s.isEmpty
  | none => false

/-- The (value or null) pattern: an absent or empty string becomes null. -/
def orNullStr : Option String → Option String
  | some s => if s.isEmpty then none else some s
  | none => none

/-- The body of POST /donations as the handler reads it: the schema fields of
insertDonationSchema.omit(userId, status) plus the extra esewaId and bankName
properties read directly off req.body.  The decimal amount string is carried
as the rational parseFloat yields, none standing for an absent or non-numeric
amount. -/
structure DonationReqBody where
  amount : Option ℚ
  paymentMethod : Option String
  transactionId : Option String
  qrImageUrl : Option String
  esewaReference : Option String
  esewaId : Option String
  bankName : Option String
  deriving DecidableEq, Repr

/-- The payment-method enum of insertDonationSchema (src/schema.ts line 132). -/
def paymentMethods : List String :=
  ["credit_card", "debit_card", "paypal", "esewa", "bank_qr"]

/-- The donation fields that survive schema validation. -/
structure ParsedDonation where
  amount : ℚ
  paymentMethod : String
  transactionId : Option String
  qrImageUrl : Option String
  esewaReference : Option String
  deriving DecidableEq, Repr

/-- insertDonationSchema.omit(userId, status).parse (src/schema.ts lines
130-137): amount must satisfy parseFloat(amount) > 0, paymentMethod must be
one of the five methods, the reference fields are optional.  A failed parse
carries the first failing refinement message (the source aggregates all
failures into one human-readable message). -/
def parseDonationBody (b : DonationReqBody) : Except String ParsedDonation :=
  match b.amount with
  | none => .error "Amount must be greater than 0"
  | some q =>
    if 0 < q then
      match b.paymentMethod with
      | some pm =>
        if paymentMethods.contains pm then
          .ok ⟨q, pm, b.transactionId, b.qrImageUrl, b.esewaReference⟩
        else .error "Invalid payment method"
      | none => .error "Invalid payment method"
    else .error "Amount must be greater than 0"

/-- Outcome of POST /donations: the HTTP status, the row handed to
storage.createDonation (none when createDonation is never invoked), and the
error message if any.  The serial row id is assigned by the database and
modeled as 0. -/
structure DonationCreateResult where
  status : Nat
  created : Option Donation
  message : Option String
  deriving DecidableEq, Repr

/-- POST /donations (donation controller, lines 129-192): require an attached
identity, validate the body, default the status to completed, switch esewa
and bank_qr to pending, attach a generated eSewa reference only when the body
carries a truthy esewaId, attach a generated placeholder QR URL and bank
transaction id only when the body carries a truthy bankName, then persist
with the falsy reference fields nulled. -/
def createDonationHandler (reqUser : Option ReqUser) (b : DonationReqBody)
    (nowMs rand : Nat) (today : JsDate) : DonationCreateResult :=
  match reqUser with
  | none => ⟨401, none, some "Not authenticated"⟩
  | some u =>
    match parseDonationBody b with
    | .error msg => ⟨400, none, some msg⟩
    | .ok d =>
      let statusAndDetails : String × ParsedDonation :=
        if d.paymentMethod = "esewa" then
          ("pending",
           if isTruthyOptStr b.esewaId then
             { d with esewaReference := some ("ESEWA-" ++ toString nowMs ++ "-" ++ toString rand) }
           else d)
        else if d.paymentMethod = "bank_qr" then
          ("pending",
           if isTruthyOptStr b.bankName then
             { d with
                 qrImageUrl := some ("https://example.com/qr-codes/church-donation-" ++ toString nowMs ++ ".png")
                 transactionId := some ("BANK-" ++ (b.bankName.getD "").toUpper ++ "-" ++ toString nowMs) }
           else d)
        else ("completed", d)
      let row : Donation :=
        ⟨0, u.id, statusAndDetails.2.amount, statusAndDetails.2.paymentMethod,
         orNullStr statusAndDetails.2.transactionId,
         orNullStr statusAndDetails.2.qrImageUrl,
         orNullStr statusAndDetails.2.esewaReference,
         statusAndDetails.1, today⟩
      ⟨201, some row, none⟩

/-- Appending anything to a nonempty string stays nonempty. -/
theorem append_ne_empty_left (s t : String) (h : s ≠ "") : s ++ t ≠ "" := by
  intro hh
  apply h
  have hd := congrArg String.data hh
  rw [String.data_append] at hd
  have hE : String.data "" = [] := rfl
  rw [hE] at hd
  have hs : s.data = [] := (List.append_eq_nil.mp hd).1
  apply String.ext
  rw [hs, hE]

/-- The (value or null) collapse keeps any nonempty string. -/
theorem orNullStr_of_ne (s : String) (h : s ≠ "") : orNullStr (some s) = some s := by
  have hne : s.isEmpty = false := by
    rw [Bool.eq_false_iff]
    intro hh
    rw [String.isEmpty_iff] at hh
    exact h hh
  simp [orNullStr, hne]

/-- A sample authenticated non-owner identity. -/
def demoReqUser : ReqUser := ⟨2, "Jane Doe", "jane.doe@example.com", "user", true, none, 0⟩

/-- C5 (counterexample): a valid authenticated bank_qr donation request whose
body carries no bankName is created with status pending but with a null QR
image URL and a null transaction id, so the response does not include the
generated placeholder QR URL and transaction id the claim promises. -/
theorem bank_qr_without_bankname_counterexample :
    createDonationHandler (some demoReqUser)
        ⟨some 50, some "bank_qr", none, none, none, none, none⟩
        1700000000000 7 ⟨2026, 2, 1, 0⟩
      = ⟨201, some ⟨0, 2, 50, "bank_qr", none, none, none, "pending", ⟨2026, 2, 1, 0⟩⟩,
         none⟩ := by
  rfl

/-- Schema validation passes the optional reference fields of the body through
unchanged (insertDonationSchema marks transactionId, qrImageUrl and
esewaReference optional). -/
theorem parseDonationBody_fields (b : DonationReqBody) (d : ParsedDonation)
    (h : parseDonationBody b = .ok d) :
    d.transactionId = b.transactionId ∧ d.qrImageUrl = b.qrImageUrl ∧
      d.esewaReference = b.esewaReference := by
  cases ha : b.amount with
  | none => simp [parseDonationBody, ha] at h
  | some q =>
    by_cases hq : 0 < q
    · cases hpm : b.paymentMethod with
      | none => simp [parseDonationBody, ha, hq, hpm] at h
      | some pm =>
        by_cases hc : pm ∈ paymentMethods
        · simp [parseDonationBody, ha, hq, hpm, hc] at h
          subst h
          exact ⟨rfl, rfl, rfl⟩
        · simp [parseDonationBody, ha, hq, hpm, hc] at h
    · simp [parseDonationBody, ha, hq] at h

/-- C5 (amended): for every authenticated, valid donation-creation request the
response is 201 with a created row whose status is completed for credit_card,
debit_card and paypal and pending for esewa and bank_qr; the generated
placeholder QR URL and bank transaction id are attached when a bank_qr
request body carries a truthy bankName, and the generated eSewa reference
when an esewa request body carries a truthy esewaId; without the triggering
field nothing is generated and those columns keep the optional client-supplied
values of the validated body, nulled when absent or empty. -/
theorem donation_status_by_payment_method :
    ∀ (u : ReqUser) (b : DonationReqBody) (nowMs rand : Nat) (today : JsDate)
      (d : ParsedDonation), parseDonationBody b = .ok d →
      ∃ row, createDonationHandler (some u) b nowMs rand today = ⟨201, some row, none⟩ ∧
        ((d.paymentMethod = "credit_card" ∨ d.paymentMethod = "debit_card"
            ∨ d.paymentMethod = "paypal") → row.status = "completed") ∧
        ((d.paymentMethod = "esewa" ∨ d.paymentMethod = "bank_qr") →
          row.status = "pending") ∧
        (d.paymentMethod = "bank_qr" → isTruthyOptStr b.bankName = true →
          row.qrImageUrl = some ("https://example.com/qr-codes/church-donation-"
              ++ toString nowMs ++ ".png") ∧
          row.transactionId = some ("BANK-" ++ (b.bankName.getD "").toUpper
              ++ "-" ++ toString nowMs)) ∧
        (d.paymentMethod = "esewa" → isTruthyOptStr b.esewaId = true →
          row.esewaReference = some ("ESEWA-" ++ toString nowMs ++ "-"
              ++ toString rand)) ∧
        (d.paymentMethod = "bank_qr" → isTruthyOptStr b.bankName = false →
          row.qrImageUrl = orNullStr b.qrImageUrl ∧
          row.transactionId = orNullStr b.transactionId) ∧
        (d.paymentMethod = "esewa" → isTruthyOptStr b.esewaId = false →
          row.esewaReference = orNullStr b.esewaReference) := by
  intro u b nowMs rand today d hparse
  obtain ⟨hft, hfq, hfe⟩ := parseDonationBody_fields b d hparse
  by_cases he : d.paymentMethod = "esewa"
  · by_cases ht : isTruthyOptStr b.esewaId = true
    · have hne : ("ESEWA-" ++ toString nowMs ++ "-" ++ toString rand) ≠ "" := by
        apply append_ne_empty_left
        apply append_ne_empty_left
        apply append_ne_empty_left
        decide
      refine ⟨⟨0, u.id, d.amount, d.paymentMethod, orNullStr d.transactionId,
        orNullStr d.qrImageUrl,
        some ("ESEWA-" ++ toString nowMs ++ "-" ++ toString rand), "pending", today⟩,
        ?_, ?_, ?_, ?_, ?_, ?_, ?_⟩
      · simp [createDonationHandler, hparse, he, ht, orNullStr_of_ne _ hne]
      · intro hcc
        exfalso
        rcases hcc with h | h | h <;> (rw [h] at he; exact absurd he (by decide))
      · intro _; rfl
      · intro hb
        rw [hb] at he
        exact absurd he (by decide)
      · intro _ _; rfl
      · intro hbq _
        rw [hbq] at he
        exact absurd he (by decide)
      · intro _ hfalse
        rw [ht] at hfalse
        cases hfalse
    · refine ⟨⟨0, u.id, d.amount, d.paymentMethod, orNullStr d.transactionId,
        orNullStr d.qrImageUrl, orNullStr d.esewaReference, "pending", today⟩,
        ?_, ?_, ?_, ?_, ?_, ?_, ?_⟩
      · simp [createDonationHandler, hparse, he, ht]
      · intro hcc
        exfalso
        rcases hcc with h | h | h <;> (rw [h] at he; exact absurd he (by decide))
      · intro _; rfl
      · intro hb
        rw [hb] at he
        exact absurd he (by decide)
      · intro _ htr
        exact absurd htr ht
      · intro hbq _
        rw [hbq] at he
        exact absurd he (by decide)
      · intro _ _
        rw [hfe]
  · by_cases hb : d.paymentMethod = "bank_qr"
    · by_cases ht : isTruthyOptStr b.bankName = true
      · have hne1 : ("https://example.com/qr-codes/church-donation-"
            ++ toString nowMs ++ ".png") ≠ "" := by
          apply append_ne_empty_left
          apply append_ne_empty_left
          decide
        have hne2 : ("BANK-" ++ (b.bankName.getD "").toUpper
            ++ "-" ++ toString nowMs) ≠ "" := by
          apply append_ne_empty_left
          apply append_ne_empty_left
          apply append_ne_empty_left
          decide
        refine ⟨⟨0, u.id, d.amount, d.paymentMethod,
          some ("BANK-" ++ (b.bankName.getD "").toUpper ++ "-" ++ toString nowMs),
          some ("https://example.com/qr-codes/church-donation-"
            ++ toString nowMs ++ ".png"),
          orNullStr d.esewaReference, "pending", today⟩, ?_, ?_, ?_, ?_, ?_, ?_, ?_⟩
        · simp [createDonationHandler, hparse, he, hb, ht,
            orNullStr_of_ne _ hne1, orNullStr_of_ne _ hne2]
        · intro hcc
          exfalso
          rcases hcc with h | h | h <;> (rw [h] at hb; exact absurd hb (by decide))
        · intro _; rfl
        · intro _ _; exact ⟨rfl, rfl⟩
        · intro hesewa
          rw [hesewa] at hb
          exact absurd hb (by decide)
        · intro _ hfalse
          rw [ht] at hfalse
          cases hfalse
        · intro hesewa _
          rw [hesewa] at hb
          exact absurd hb (by decide)
      · refine ⟨⟨0, u.id, d.amount, d.paymentMethod, orNullStr d.transactionId,
          orNullStr d.qrImageUrl, orNullStr d.esewaReference, "pending", today⟩,
          ?_, ?_, ?_, ?_, ?_, ?_, ?_⟩
        · simp [createDonationHandler, hparse, he, hb, ht]
        · intro hcc
          exfalso
          rcases hcc with h | h | h <;> (rw [h] at hb; exact absurd hb (by decide))
        · intro _; rfl
        · intro _ htr
          exact absurd htr ht
        · intro hesewa
          rw [hesewa] at hb
          exact absurd hb (by decide)
        · intro _ _
          exact ⟨by rw [hfq], by rw [hft]⟩
        · intro hesewa _
          rw [hesewa] at hb
          exact absurd hb (by decide)
    · refine ⟨⟨0, u.id, d.amount, d.paymentMethod, orNullStr d.transactionId,
        orNullStr d.qrImageUrl, orNullStr d.esewaReference, "completed", today⟩,
        ?_, ?_, ?_, ?_, ?_, ?_, ?_⟩
      · simp [createDonationHandler, hparse, he, hb]
      · intro _; rfl
      · intro hpm
        exfalso
        rcases hpm with h | h
        · exact he h
        · exact hb h
      · intro h
        exact absurd h hb
      · intro h
        exact absurd h he
      · intro h _
        exact absurd h hb
      · intro h _
        exact absurd h he

/-- Witness for C5 at a concrete bank_qr request carrying a bankName. -/
theorem donation_status_by_payment_method_witness :
    ∃ row, createDonationHandler (some demoReqUser)
        ⟨some 25, some "bank_qr", none, none, none, none, some "nabil"⟩ 1000 9 default
        = ⟨201, some row, none⟩ ∧
      ((("bank_qr" : String) = "credit_card" ∨ ("bank_qr" : String) = "debit_card"
          ∨ ("bank_qr" : String) = "paypal") → row.status = "completed") ∧
      ((("bank_qr" : String) = "esewa" ∨ ("bank_qr" : String) = "bank_qr") →
        row.status = "pending") ∧
      (("bank_qr" : String) = "bank_qr" →
        isTruthyOptStr (some "nabil") = true →
        row.qrImageUrl = some ("https://example.com/qr-codes/church-donation-"
            ++ toString 1000 ++ ".png") ∧
        row.transactionId = some ("BANK-" ++ ((some "nabil").getD "").toUpper
            ++ "-" ++ toString 1000)) ∧
      (("bank_qr" : String) = "esewa" → isTruthyOptStr (none : Option String) = true →
        row.esewaReference = some ("ESEWA-" ++ toString 1000 ++ "-" ++ toString 9)) ∧
      (("bank_qr" : String) = "bank_qr" → isTruthyOptStr (some "nabil") = false →
        row.qrImageUrl = orNullStr none ∧ row.transactionId = orNullStr none) ∧
      (("bank_qr" : String) = "esewa" → isTruthyOptStr (none : Option String) = false →
        row.esewaReference = orNullStr none) :=
  donation_status_by_payment_method demoReqUser
    ⟨some 25, some "bank_qr", none, none, none, none, some "nabil"⟩ 1000 9 default
    ⟨25, "bank_qr", none, none, none⟩ (by rfl)

/-- C6 (counterexample): an unauthenticated donation-creation request with a
negative amount is answered 401 by the authentication gate, not 400, though
still without persisting a row. -/
theorem nonpositive_amount_unauthenticated_401 :
    createDonationHandler none
        ⟨some (-5), some "credit_card", none, none, none, none, none⟩ 0 0 default
      = ⟨401, none, some "Not authenticated"⟩ ∧
    (createDonationHandler none
        ⟨some (-5), some "credit_card", none, none, none, none, none⟩ 0 0 default).status
      ≠ 400 := by
  exact ⟨rfl, by decide⟩

/-- C6 (amended): a donation-creation request whose amount is nonpositive
never reaches storage.createDonation; when the request is authenticated the
endpoint responds 400 from the aggregated validation failure, and when it is
unauthenticated it responds 401 before validation. -/
theorem nonpositive_amount_not_persisted :
    ∀ (reqUser : Option ReqUser) (b : DonationReqBody) (nowMs rand : Nat)
      (today : JsDate) (q : ℚ), b.amount = some q → q ≤ 0 →
      (createDonationHandler reqUser b nowMs rand today).created = none ∧
      (∀ u, reqUser = some u →
        (createDonationHandler reqUser b nowMs rand today).status = 400) ∧
      (reqUser = none →
        (createDonationHandler reqUser b nowMs rand today).status = 401) := by
  intro reqUser b nowMs rand today q ha hq
  have hparse : parseDonationBody b = .error "Amount must be greater than 0" := by
    simp [parseDonationBody, ha, not_lt.mpr hq]
  cases reqUser with
  | none =>
      refine ⟨rfl, ?_, ?_⟩
      · intro u h
        cases h
      · intro _
        rfl
  | some u =>
      refine ⟨?_, ?_, ?_⟩
      · simp [createDonationHandler, hparse]
      · intro u' _
        simp [createDonationHandler, hparse]
      · intro h
        cases h

/-- Witness for C6 at a concrete authenticated zero-amount request. -/
theorem nonpositive_amount_not_persisted_witness :
    (createDonationHandler (some demoReqUser)
      ⟨some 0, some "paypal", none, none, none, none, none⟩ 0 0 default).created = none ∧
    (∀ u, (some demoReqUser : Option ReqUser) = some u →
      (createDonationHandler (some demoReqUser)
        ⟨some 0, some "paypal", none, none, none, none, none⟩ 0 0 default).status = 400) ∧
    ((some demoReqUser : Option ReqUser) = none →
      (createDonationHandler (some demoReqUser)
        ⟨some 0, some "paypal", none, none, none, none, none⟩ 0 0 default).status = 401) :=
  nonpositive_amount_not_persisted (some demoReqUser)
    ⟨some 0, some "paypal", none, none, none, none, none⟩ 0 0 default 0 rfl le_rfl

/-- The update-data loop shared by the allow-listed update endpoints: for each
field of the allow-list in order, copy body[field] into updateData when it is
defined. -/
def buildUpdateData (allowed : List String) (body : Body) : Body :=
  match allowed with
  | [] => []
  | f :: rest =>
    match getField body f with
    | some v => (f, v) :: buildUpdateData rest body
    | none => buildUpdateData rest body

/-- Allow-list of PATCH /users/profile (src/user.controller.ts line 196). -/
def profileAllowedFields : List String := ["name", "notificationOptIn", "profilePictureUrl"]

/-- Allow-list of admin PATCH /contacts/:id (src/contact.controller.ts line 70). -/
def contactAllowedFields : List String := ["status"]

/-- Allow-list of admin PATCH /donations/:id (donation controller line 101). -/
def donationAllowedFields : List String := ["status"]

/-- Allow-list of admin PATCH /media/:id (src/media.controller.ts line 167). -/
def mediaAllowedFields : List String := ["title", "description"]

/-- Update data reaching storage.updateUser from PATCH /users/profile. -/
def profileUpdateData (body : Body) : Body := buildUpdateData profileAllowedFields body

/-- Update data reaching storage.updateContact from admin PATCH /contacts/:id. -/
def contactUpdateData (body : Body) : Body := buildUpdateData contactAllowedFields body

/-- Update data reaching storage.updateDonation from admin PATCH /donations/:id. -/
def donationUpdateData (body : Body) : Body := buildUpdateData donationAllowedFields body

/-- Update data reaching storage.updateMedia from admin PATCH /media/:id. -/
def mediaUpdateData (body : Body) : Body := buildUpdateData mediaAllowedFields body

/-- Update data reaching storage.updateEvent from PATCH /events/:id
(event controller line 242): the raw request body, unfiltered. -/
def eventUpdateData (body : Body) : Body := body

/-- Update data reaching storage.updateSermon from PATCH /sermons/:id
(src/sermon.controller.ts line 154): the raw request body, unfiltered. -/
def sermonUpdateData (body : Body) : Body := body

/-- Every entry the update-data loop emits names an allow-listed field and
carries exactly the value the body supplied for it. -/
theorem mem_buildUpdateData (allowed : List String) (body : Body)
    (p : String × JsValue) (hp : p ∈ buildUpdateData allowed body) :
    p.1 ∈ allowed ∧ getField body p.1 = some p.2 := by
  induction allowed with
  | nil => cases hp
  | cons f rest ih =>
    rw [buildUpdateData] at hp
    cases hf : getField body f with
    | some v =>
      rw [hf] at hp
      cases hp with
      | head => exact ⟨List.mem_cons_self _ _, hf⟩
      | tail _ hmem =>
        have := ih hmem
        exact ⟨List.mem_cons_of_mem _ this.1, this.2⟩
    | none =>
      rw [hf] at hp
      have := ih hp
      exact ⟨List.mem_cons_of_mem _ this.1, this.2⟩

/-- A non-owner user row used in the raw-merge counterexample. -/
def janeUser : User :=
  ⟨2, "Jane Doe", "jane.doe@example.com", "pw", "user", "active", true, none, 0⟩

/-- C7 (counterexample): the admin user update spreads the raw request body
into the update data, so a role field in the body reaches storage.updateUser
and flips the role column of a user row through the endpoint; and the event
update forwards the raw body unchanged, so a non-allow-listed column such as
createdAt reaches storage.updateEvent. -/
theorem raw_body_merge_counterexample :
    getField (adminUserUpdateData id [("role", JsValue.str "owner")]) "role"
      = some (JsValue.str "owner") ∧
    adminUpdateUserHandler [janeUser] (some 2) [("role", JsValue.str "owner")] id
      = ⟨200, [⟨2, "Jane Doe", "jane.doe@example.com", "pw", "owner", "active",
               true, none, 0⟩]⟩ ∧
    eventUpdateData [("createdAt", JsValue.str "1999-01-01T00:00:00Z")]
      = [("createdAt", JsValue.str "1999-01-01T00:00:00Z")] := by
  refine ⟨rfl, ?_, rfl⟩
  rfl

/-- C7 (amended): the profile, contact-status, donation-status and media
update endpoints write only fields of their fixed allow-lists with the values
the body supplied; but the event and sermon updates forward the raw request
body to storage unchanged, and the admin user update forwards the raw body as
well (only hashing a provided password), so those three endpoints are not
allow-list filtered. -/
theorem update_field_allowlists :
    (∀ (body : Body) (p : String × JsValue), p ∈ profileUpdateData body →
      p.1 ∈ profileAllowedFields ∧ getField body p.1 = some p.2) ∧
    (∀ (body : Body) (p : String × JsValue), p ∈ contactUpdateData body →
      p.1 ∈ contactAllowedFields ∧ getField body p.1 = some p.2) ∧
    (∀ (body : Body) (p : String × JsValue), p ∈ donationUpdateData body →
      p.1 ∈ donationAllowedFields ∧ getField body p.1 = some p.2) ∧
    (∀ (body : Body) (p : String × JsValue), p ∈ mediaUpdateData body →
      p.1 ∈ mediaAllowedFields ∧ getField body p.1 = some p.2) ∧
    (∀ body : Body, eventUpdateData body = body) ∧
    (∀ body : Body, sermonUpdateData body = body) ∧
    (∀ (hash : String → String) (body : Body), getField body "password" = none →
      adminUserUpdateData hash body = body) := by
  refine ⟨?_, ?_, ?_, ?_, fun _ => rfl, fun _ => rfl, ?_⟩
  · intro body p hp
    exact mem_buildUpdateData _ _ _ hp
  · intro body p hp
    exact mem_buildUpdateData _ _ _ hp
  · intro body p hp
    exact mem_buildUpdateData _ _ _ hp
  · intro body p hp
    exact mem_buildUpdateData _ _ _ hp
  · intro hash body h
    unfold adminUserUpdateData
    rw [h]

/-- Witness for C7 at a concrete profile-update body and at a concrete
passwordless admin body. -/
theorem update_field_allowlists_witness :
    (("name" : String) ∈ profileAllowedFields ∧
      getField [("name", JsValue.str "Ann")] "name" = some (JsValue.str "Ann")) ∧
    adminUserUpdateData id [("role", JsValue.str "owner")] = [("role", JsValue.str "owner")] :=
  ⟨update_field_allowlists.1 [("name", JsValue.str "Ann")] ("name", JsValue.str "Ann")
     (by decide),
   update_field_allowlists.2.2.2.2.2.2 id [("role", JsValue.str "owner")] rfl⟩

/-- Whether the first list begins with the second (element-wise). -/
def listStartsWith [BEq α] : List α → List α → Bool
  | [], _ => true
  | _ :: _, [] => false
  | a :: ps, b :: ls => a == b && listStartsWith ps ls

/-- Whether the pattern occurs contiguously inside the list. -/
def listHasInfix [BEq α] (pat : List α) : List α → Bool
  | [] => pat.isEmpty
  | b :: ls => listStartsWith pat (b :: ls) || listHasInfix pat ls

/-- SQL LIKE with pattern percent-search-percent for a literal search string:
substring containment. -/
def strContains (s pat : String) : Bool :=
  listHasInfix pat.data s.data

/-- The orderBy model: insertion sort by the given Boolean order (row order
details beyond the sort key are unspecified at the SQL level). -/
def insertBy (le : α → α → Bool) (x : α) : List α → List α
  | [] => [x]
  | y :: ys => if le x y then x :: y :: ys else y :: insertBy le x ys

/-- Sort a row list by the given Boolean order. -/
def sortBy (le : α → α → Bool) : List α → List α
  | [] => []
  | x :: xs => insertBy le x (sortBy le xs)

/-- The limit/offset pagination window: skip (page-1)*perPage rows, take
perPage rows. -/
def paginate (page perPage : Nat) (l : List α) : List α :=
  (l.drop ((page - 1) * perPage)).take perPage

/-- storage.getDonationsByUserId (src/cloudinary.ts lines 393-412): the
paginated page of the user's donations ordered by createdAt descending,
paired with the count of all of the user's donations (the separate count
query has no limit/offset). -/
def getDonationsByUserId (db : List Donation) (userId page perPage : Nat) :
    List Donation × Nat :=
  let matching := db.filter (fun d => d.userId == userId)
  (paginate page perPage
     (sortBy (fun a b => JsDate.leB b.createdAt a.createdAt) matching),
   matching.length)

/-- A row of the contacts table (src/schema.ts). -/
structure Contact where
  id : Nat
  name : String
  email : String
  message : String
  status : String
  responseMessage : Option String
  responseDate : Option JsDate
  createdAt : JsDate
  deriving DecidableEq, Repr

/-- The where clause of storage.getAllContacts: a nonempty search term must
occur in the name, email or message, and a status filter other than all must
match the status column. -/
def contactMatches (search status : String) (c : Contact) : Bool :=
  (search == ""
    || (strContains c.name search || strContains c.email search
          || strContains c.message search))
  && (status == "all" || c.status == status)

/-- storage.getAllContacts (src/cloudinary.ts lines 309-349): the paginated
page of matching contacts ordered by createdAt descending, paired with the
count of all matching contacts. -/
def getAllContacts (db : List Contact) (page perPage : Nat)
    (search status : String) : List Contact × Nat :=
  let matching := db.filter (contactMatches search status)
  (paginate page perPage
     (sortBy (fun a b => JsDate.leB b.createdAt a.createdAt) matching),
   matching.length)

/-- A JSON response document. -/
inductive Json where
  | obj (fields : List (String × Json))
  | arr (items : List Json)
  | str (s : String)
  | num (q : ℚ)
  | jbool (b : Bool)
  | null

/-- Two-digit zero padding for ISO date components. -/
def pad2 (n : Int) : String :=
  if n < 10 then "0" ++ toString n else toString n

/-- Three-digit zero padding for ISO millisecond components. -/
def pad3 (n : Int) : String :=
  if n < 10 then "00" ++ toString n
  else if n < 100 then "0" ++ toString n
  else toString n

/-- Date.prototype.toISOString on the civil fields (the server clock is
modeled in UTC, so no zone conversion applies). -/
def isoString (d : JsDate) : String :=
  toString d.year ++ "-" ++ pad2 (d.month + 1) ++ "-" ++ pad2 d.day ++ "T"
    ++ pad2 (Int.ediv d.ms 3600000) ++ ":"
    ++ pad2 (Int.ediv (Int.emod d.ms 3600000) 60000) ++ ":"
    ++ pad2 (Int.ediv (Int.emod d.ms 60000) 1000) ++ "."
    ++ pad3 (Int.emod d.ms 1000) ++ "Z"

/-- Serialization of an optional string column to JSON. -/
def jsonOfOptStr : Option String → Json
  | some s => .str s
  | none => .null

/-- res.json serialization of a donation row (the decimal amount column is
carried as its numeric value). -/
def donationToJson (d : Donation) : Json :=
  .obj [("id", .num d.id), ("userId", .num d.userId), ("amount", .num d.amount),
        ("paymentMethod", .str d.paymentMethod),
        ("transactionId", jsonOfOptStr d.transactionId),
        ("qrImageUrl", jsonOfOptStr d.qrImageUrl),
        ("esewaReference", jsonOfOptStr d.esewaReference),
        ("status", .str d.status), ("createdAt", .str (isoString d.createdAt))]

/-- res.json serialization of a contact row. -/
def contactToJson (c : Contact) : Json :=
  .obj [("id", .num c.id), ("name", .str c.name), ("email", .str c.email),
        ("message", .str c.message), ("status", .str c.status),
        ("responseMessage", jsonOfOptStr c.responseMessage),
        ("responseDate",
          match c.responseDate with
          | some rd => .str (isoString rd)
          | none => .null),
        ("createdAt", .str (isoString c.createdAt))]

/-- GET /donations/history (donation controller lines 195-211): after the
auth gate, fetch the page and total from storage.getDonationsByUserId, then
respond 200 with res.json(donations) - the bare row array. -/
def donationHistoryRoute (db : List Donation) (reqUser : Option ReqUser)
    (page perPage : Nat) : Nat × Json :=
  match reqUser with
  | none => (401, .obj [("message", .str "Not authenticated")])
  | some u =>
    let res := getDonationsByUserId db u.id page perPage
    (200, .arr (res.1.map donationToJson))

/-- Admin GET /contacts (src/contact.controller.ts lines 16-30): respond 200
with an object holding the page of contacts and the matching total. -/
def adminContactsRoute (db : List Contact) (page perPage : Nat)
    (search status : String) : Nat × Json :=
  let res := getAllContacts db page perPage search status
  (200, .obj [("contacts", .arr (res.1.map contactToJson)),
              ("total", .num res.2)])

/-- Whether a JSON document is an object carrying a total member. -/
def hasTotalField : Json → Bool
  | .obj fs => fs.any (fun f => f.1 == "total")
  | _ => false

/-- A sample donation row belonging to user 2. -/
def demoDonation : Donation :=
  ⟨1, 2, 50, "credit_card", none, none, none, "completed", ⟨2026, 0, 10, 0⟩⟩

/-- C8 (counterexample): the authenticated donation-history listing responds
200 with a bare array and no total member, although the storage helper
returned the matching total (here 1). -/
theorem donation_history_response_lacks_total :
    (donationHistoryRoute [demoDonation] (some demoReqUser) 1 10).1 = 200 ∧
    hasTotalField (donationHistoryRoute [demoDonation] (some demoReqUser) 1 10).2
      = false ∧
    (getDonationsByUserId [demoDonation] 2 1 10).2 = 1 := by
  refine ⟨rfl, rfl, rfl⟩

/-- C8 (amended): listing endpoints pair the requested page with a total equal
to the count of all matching rows before pagination - the admin contacts
listing responds 200 with a contacts plus total object - but the donation
history endpoint discards the total and responds 200 with the bare array of
the requested page. -/
theorem listing_total_before_pagination :
    (∀ (db : List Donation) (uid page perPage : Nat),
      (getDonationsByUserId db uid page perPage).2
        = (db.filter (fun d => d.userId == uid)).length) ∧
    (∀ (db : List Contact) (page perPage : Nat) (search status : String),
      (getAllContacts db page perPage search status).2
        = (db.filter (contactMatches search status)).length) ∧
    (∀ (db : List Contact) (page perPage : Nat) (search status : String),
      adminContactsRoute db page perPage search status
        = (200, .obj [("contacts", .arr
              ((getAllContacts db page perPage search status).1.map contactToJson)),
            ("total", .num ((db.filter (contactMatches search status)).length))])) ∧
    (∀ (db : List Donation) (u : ReqUser) (page perPage : Nat),
      donationHistoryRoute db (some u) page perPage
        = (200, .arr ((getDonationsByUserId db u.id page perPage).1.map donationToJson))) :=
  ⟨fun _ _ _ _ => rfl, fun _ _ _ _ _ => rfl, fun _ _ _ _ _ => rfl, fun _ _ _ _ => rfl⟩

/-- The JWT payload as verifyToken (src/jwt.ts) returns it: a verified token
yields its claims, a malformed or unverifiable one yields null; the id claim
may be absent. -/
structure TokenClaims where
  id : Option Nat
  email : Option String
  role : Option String
  deriving DecidableEq, Repr

/-- The middleware check (not decoded.id): an absent or zero id claim is
falsy and is treated as an invalid token. -/
def claimsId? (c : TokenClaims) : Option Nat :=
  match c.id with
  | some n => if n = 0 then none else some n
  | none => none

/-- Cookie lookup on the parsed cookie jar. -/
def lookupCookie : List (String × String) → String → Option String
  | [], _ => none
  | (k, v) :: rest, name => if k = name then some v else lookupCookie rest name

/-- The req.user object built from a user row (password dropped). -/
def mkReqUser (u : User) : ReqUser :=
  ⟨u.id, u.name, u.email, u.role, u.notificationOptIn, u.profilePictureUrl, u.createdAt⟩

/-- Outcome of a middleware step: either a response is written (the request is
blocked) or the request passes on, possibly with an identity attached. -/
inductive MwResult where
  | block (status : Nat)
  | pass (ident : Option ReqUser)
  deriving DecidableEq, Repr

/-- setUserInfo (src/auth.middleware.ts lines 23-77): read the auth_token
cookie, verify it, check the id claim, load the user, skip inactive users;
every branch calls next(), attaching req.user only on the full success path.
The verifier is the abstract token primitive. -/
def setUserInfo (verify : String → Option TokenClaims) (db : List User)
    (cookies : Option (List (String × String))) : MwResult :=
  match cookies with
  | none => .pass none
  | some cs =>
    match lookupCookie cs "auth_token" with
    | none => .pass none
    | some token =>
      if token.isEmpty then .pass none
      else
        match verify token with
        | none => .pass none
        | some decoded =>
          match claimsId? decoded with
          | none => .pass none
          | some uid =>
            match getUserById db uid with
            | none => .pass none
            | some user =>
              if user.status = "inactive" then .pass none
              else .pass (some (mkReqUser user))

/-- The identity-attachment rule as the specification words it: an identity
is attached exactly when the auth cookie holds a token that verifies to
claims referencing an existing user whose status is active; in every other
case the request proceeds with no identity attached. -/
def specAttachedIdentity (verify : String → Option TokenClaims) (db : List User)
    (cookies : Option (List (String × String))) : Option ReqUser :=
  match cookies with
  | none => none
  | some cs =>
    match lookupCookie cs "auth_token" with
    | none => none
    | some token =>
      match verify token with
      | none => none
      | some decoded =>
        match decoded.id with
        | none => none
        | some uid =>
          match getUserById db uid with
          | none => none
          | some user =>
            if user.status = "active" then some (mkReqUser user) else none

/-- Rows with positive ids are never found under id 0. -/
theorem getUserById_zero (db : List User) (h : ∀ u ∈ db, 0 < u.id) :
    getUserById db 0 = none := by
  rw [getUserById, List.find?_eq_none]
  intro u hu
  have := h u hu
  simp only [beq_iff_eq]
  omega

/-- C9: for every verifier, table state and cookie jar of a well-formed
deployment (row ids positive as the serial column guarantees, statuses
confined to active or inactive, and the empty token unverifiable as with any
real JWT verifier), the optional-identity middleware never blocks: it always
passes the request on, attaching an identity exactly as the specification
rule states - when a valid token references an existing active user. -/
theorem setUserInfo_never_blocks :
    ∀ (verify : String → Option TokenClaims) (db : List User)
      (cookies : Option (List (String × String))),
      (∀ u ∈ db, 0 < u.id ∧ (u.status = "active" ∨ u.status = "inactive")) →
      verify "" = none →
      setUserInfo verify db cookies
        = MwResult.pass (specAttachedIdentity verify db cookies) := by
  intro verify db cookies hdb hv
  cases cookies with
  | none => rfl
  | some cs =>
    cases hlk : lookupCookie cs "auth_token" with
    | none => simp [setUserInfo, specAttachedIdentity, hlk]
    | some token =>
      by_cases hemp : token.isEmpty = true
      · rw [String.isEmpty_iff] at hemp
        subst hemp
        simp [setUserInfo, specAttachedIdentity, hlk, hv]
      · cases hver : verify token with
        | none => simp [setUserInfo, specAttachedIdentity, hlk, hemp, hver]
        | some decoded =>
          cases hid : decoded.id with
          | none =>
            simp [setUserInfo, specAttachedIdentity, hlk, hemp, hver, claimsId?, hid]
          | some uid =>
            by_cases h0 : uid = 0
            · subst h0
              have hz : getUserById db 0 = none :=
                getUserById_zero db (fun u hu => (hdb u hu).1)
              simp [setUserInfo, specAttachedIdentity, hlk, hemp, hver,
                claimsId?, hid, hz]
            · cases hfind : getUserById db uid with
              | none =>
                simp [setUserInfo, specAttachedIdentity, hlk, hemp, hver,
                  claimsId?, hid, h0, hfind]
              | some user =>
                have hfind' : List.find? (fun u => u.id == uid) db = some user := hfind
                have hmem : user ∈ db := List.mem_of_find?_eq_some hfind'
                rcases (hdb user hmem).2 with hact | hinact
                · simp [setUserInfo, specAttachedIdentity, hlk, hemp, hver,
                    claimsId?, hid, h0, hfind, hact]
                · simp [setUserInfo, specAttachedIdentity, hlk, hemp, hver,
                    claimsId?, hid, h0, hfind, hinact]

/-- Witness for C9 at an empty table and cookieless request under a verifier
rejecting everything. -/
theorem setUserInfo_never_blocks_witness :
    setUserInfo (fun _ => none) [] none
      = MwResult.pass (specAttachedIdentity (fun _ => none) [] none) :=
  setUserInfo_never_blocks (fun _ => none) [] none
    (by intro u hu; cases hu) rfl

/-- The uploaded file as multer sees it while parsing the multipart stream. -/
structure UploadFile where
  sizeBytes : Nat
  mimetype : String
  deriving DecidableEq, Repr

/-- Outcome of POST /admin/media: either multer aborts the request during
parsing (before the handler runs) or the handler responds, having invoked
uploadToCloudinary or not. -/
inductive UploadOutcome where
  | multerReject (code : String)
  | response (status : Nat) (cloudinaryCalled : Bool)
  deriving DecidableEq, Repr

/-- Whether the remote asset-store upload was invoked on this request. -/
def cloudinaryCalled : UploadOutcome → Bool
  | .multerReject _ => false
  | .response _ b => b

/-- The multer fileSize cap (src/media.controller.ts line 15). -/
def MAX_FILE_SIZE : Nat := 10 * 1024 * 1024

/-- The multer fileFilter (src/media.controller.ts lines 17-24): only
image/* and video/* MIME types are accepted. -/
def mimeAllowed (f : UploadFile) : Bool :=
  f.mimetype.startsWith "image/" || f.mimetype.startsWith "video/"

/-- The POST /media handler body (src/media.controller.ts lines 51-112) after
multer: require an identity, require a file, require truthy title and type,
then call uploadToCloudinary; uploadOk stands for the remote call returning a
usable secure_url (false responds 500), validOk for the subsequent
insertMediaSchema.parse succeeding (false responds 400); both happen after
the remote call. -/
def mediaUploadHandler (reqUser : Option ReqUser) (file : Option UploadFile)
    (title ty : Option String) (uploadOk validOk : Bool) : UploadOutcome :=
  match reqUser with
  | none => .response 401 false
  | some _ =>
    match file with
    | none => .response 400 false
    | some _ =>
      if !(isTruthyOptStr title) || !(isTruthyOptStr ty) then .response 400 false
      else if uploadOk then
        (if validOk then .response 201 true else .response 400 true)
      else .response 500 true

/-- POST /admin/media end to end: multer parses the multipart file first,
rejecting a disallowed MIME type or an oversized file before the handler ever
runs; an accepted (or absent) file reaches the handler. -/
def mediaUploadRoute (reqUser : Option ReqUser) (file : Option UploadFile)
    (title ty : Option String) (uploadOk validOk : Bool) : UploadOutcome :=
  match file with
  | some f =>
    if !(mimeAllowed f) then .multerReject "INVALID_FILE_TYPE"
    else if f.sizeBytes > MAX_FILE_SIZE then .multerReject "LIMIT_FILE_SIZE"
    else mediaUploadHandler reqUser (some f) title ty uploadOk validOk
  | none => mediaUploadHandler reqUser none title ty uploadOk validOk

/-- C10: a media upload whose file exceeds 10MB or is neither image/* nor
video/* is rejected by multer during parsing, before uploadToCloudinary can
run; and the remote call happens only on an authenticated request with an
accepted file and truthy title and type. -/
theorem media_upload_gating :
    ∀ (reqUser : Option ReqUser) (file : Option UploadFile)
      (title ty : Option String) (uploadOk validOk : Bool),
      (∀ f, file = some f → (MAX_FILE_SIZE < f.sizeBytes ∨ mimeAllowed f = false) →
        (∃ code, mediaUploadRoute reqUser file title ty uploadOk validOk
            = .multerReject code) ∧
        cloudinaryCalled (mediaUploadRoute reqUser file title ty uploadOk validOk)
          = false) ∧
      (cloudinaryCalled (mediaUploadRoute reqUser file title ty uploadOk validOk)
          = true →
        ∃ f u, file = some f ∧ mimeAllowed f = true ∧ f.sizeBytes ≤ MAX_FILE_SIZE ∧
          reqUser = some u ∧ isTruthyOptStr title = true ∧ isTruthyOptStr ty = true) := by
  intro reqUser file title ty uploadOk validOk
  constructor
  · intro f hf hbad
    subst hf
    by_cases hm : mimeAllowed f = true
    · rcases hbad with hsz | hmm
      · have hroute : mediaUploadRoute reqUser (some f) title ty uploadOk validOk
            = .multerReject "LIMIT_FILE_SIZE" := by
          simp only [mediaUploadRoute, hm, hsz, Bool.not_true, Bool.false_eq_true,
            if_false, if_true]
        exact ⟨⟨_, hroute⟩, by rw [hroute]; rfl⟩
      · rw [hm] at hmm
        cases hmm
    · have hm' : mimeAllowed f = false := by
        rwa [Bool.not_eq_true] at hm
      have hroute : mediaUploadRoute reqUser (some f) title ty uploadOk validOk
          = .multerReject "INVALID_FILE_TYPE" := by
        simp only [mediaUploadRoute, hm', Bool.not_false, eq_self_iff_true, if_true]
      exact ⟨⟨_, hroute⟩, by rw [hroute]; rfl⟩
  · intro hcalled
    cases file with
    | none =>
      cases reqUser with
      | none => exact (Bool.false_ne_true hcalled).elim
      | some u => exact (Bool.false_ne_true hcalled).elim
    | some f =>
      by_cases hm : mimeAllowed f = true
      · by_cases hsz : MAX_FILE_SIZE < f.sizeBytes
        · have hroute : mediaUploadRoute reqUser (some f) title ty uploadOk validOk
              = .multerReject "LIMIT_FILE_SIZE" := by
            simp only [mediaUploadRoute, hm, hsz, Bool.not_true, Bool.false_eq_true,
              if_false, if_true]
          rw [hroute] at hcalled
          exact (Bool.false_ne_true hcalled).elim
        · cases reqUser with
          | none =>
            have hroute : mediaUploadRoute none (some f) title ty uploadOk validOk
                = .response 401 false := by
              simp only [mediaUploadRoute, hm, Bool.not_true, Bool.false_eq_true,
                if_false, if_neg hsz, mediaUploadHandler]
            rw [hroute] at hcalled
            exact (Bool.false_ne_true hcalled).elim
          | some u =>
            by_cases hti : isTruthyOptStr title = true
            · by_cases hty : isTruthyOptStr ty = true
              · exact ⟨f, u, rfl, hm, Nat.le_of_not_lt hsz, rfl, hti, hty⟩
              · have hty' : isTruthyOptStr ty = false := by
                  rwa [Bool.not_eq_true] at hty
                have hroute : mediaUploadRoute (some u) (some f) title ty
                    uploadOk validOk = .response 400 false := by
                  simp only [mediaUploadRoute, hm, Bool.not_true, Bool.false_eq_true,
                    if_false, if_neg hsz, mediaUploadHandler, hti, hty',
                    Bool.not_false, Bool.or_true, eq_self_iff_true, if_true]
                rw [hroute] at hcalled
                exact (Bool.false_ne_true hcalled).elim
            · have hti' : isTruthyOptStr title = false := by
                rwa [Bool.not_eq_true] at hti
              have hroute : mediaUploadRoute (some u) (some f) title ty
                  uploadOk validOk = .response 400 false := by
                simp only [mediaUploadRoute, hm, Bool.not_true, Bool.false_eq_true,
                  if_false, if_neg hsz, mediaUploadHandler, hti',
                  Bool.not_false, Bool.true_or, eq_self_iff_true, if_true]
              rw [hroute] at hcalled
              exact (Bool.false_ne_true hcalled).elim
      · have hm' : mimeAllowed f = false := by
          rwa [Bool.not_eq_true] at hm
        have hroute : mediaUploadRoute reqUser (some f) title ty uploadOk validOk
            = .multerReject "INVALID_FILE_TYPE" := by
          simp only [mediaUploadRoute, hm', Bool.not_false, eq_self_iff_true, if_true]
        rw [hroute] at hcalled
        exact (Bool.false_ne_true hcalled).elim

/-- Witness for C10: an 11MB image upload is aborted by multer before any
remote call, and a PDF upload likewise. -/
theorem media_upload_gating_witness :
    ((∃ code, mediaUploadRoute (some demoReqUser) (some ⟨11534336, "image/png"⟩)
        (some "Title") (some "image") true true = .multerReject code) ∧
      cloudinaryCalled (mediaUploadRoute (some demoReqUser)
        (some ⟨11534336, "image/png"⟩) (some "Title") (some "image") true true)
        = false) :=
  (media_upload_gating (some demoReqUser) (some ⟨11534336, "image/png"⟩)
      (some "Title") (some "image") true true).1
    ⟨11534336, "image/png"⟩ rfl (by left; decide)
